import Mathlib

/-!
# FundPilot decision core: shallow embedding

A shallow embedding of the quantitative decision core of the FundPilot
repository (`src/strategy/indicators.py`, `src/strategy/asset_config.py`,
`src/strategy/etf_strategy.py`, `src/strategy/bond_strategy.py`,
`src/strategy/decision_synthesizer.py`, and the confidence conversions of
`src/ai/ai_decision.py`), together with theorems settling the behavioural
claims about that core.

Modelling conventions:
* Python floats are modelled as exact rationals (`ℚ`); every constant in the
  source is an exact decimal, so the embedding is exact.
* Python's `None` becomes `Option`.
* Log statements are side effects only and are dropped.
* Python f-string number formatting (`:.1f`, `:.0%`, ...) is abstracted by
  `fmtQ`, which renders the exact rational; the textual payload of
  `reasoning`/warning strings keeps the same data dependencies but not the
  decimal rounding of the original formatting directives.
-/

/-- Rendering of a rational inside a message string; abstracts Python float
formatting (the decision logic never inspects these strings). -/
def fmtQ (q : ℚ) : String := toString q.num ++ "/" ++ toString q.den

/-- `charsLeadEq l pat` checks that `pat` occurs at the very start of `l`. -/
def charsLeadEq : List Char → List Char → Bool
  | _, [] => true
  | [], _ :: _ => false
  | a :: as, b :: bs => a = b && charsLeadEq as bs

/-- `charsContain l pat` checks that `pat` occurs contiguously inside `l`. -/
def charsContain : List Char → List Char → Bool
  | [], pat => pat.isEmpty
  | a :: as, pat => charsLeadEq (a :: as) pat || charsContain as pat

/-- Python's substring test `pat in s`. -/
def strContains (s pat : String) : Bool := charsContain s.toList pat.toList

/-- Python's `s or default` idiom on optional strings (`None` and the empty
string are both falsy). -/
def orDefault (s : Option String) (d : String) : String :=
  match s with
  | none => d
  | some v => if v = "" then d else v

/-! ## `strategy/indicators.py`: the metrics bundle -/

/-- `QuantMetrics` from `strategy/indicators.py`. -/
structure QuantMetrics where
  percentile_60 : ℚ
  percentile_250 : ℚ
  percentile_500 : ℚ
  ma_60 : ℚ
  ma_deviation : ℚ
  max_250 : ℚ
  min_250 : ℚ
  drawdown : Option ℚ
  drawdown_60 : Option ℚ
  volatility_60 : ℚ
  daily_change : Option ℚ

/-- `get_percentile_consensus` from `strategy/indicators.py`. -/
def get_percentile_consensus (metrics : QuantMetrics)
    (low_threshold high_threshold : ℚ) : String :=
  let low_count : ℕ :=
    (if metrics.percentile_60 < low_threshold then 1 else 0) +
    (if metrics.percentile_250 < low_threshold then 1 else 0) +
    (if metrics.percentile_500 < low_threshold then 1 else 0)
  let high_count : ℕ :=
    (if high_threshold < metrics.percentile_60 then 1 else 0) +
    (if high_threshold < metrics.percentile_250 then 1 else 0) +
    (if high_threshold < metrics.percentile_500 then 1 else 0)
  if low_count = 3 then "强低估"
  else if 2 ≤ low_count then "弱低估"
  else if high_count = 3 then "强高估"
  else if 2 ≤ high_count then "弱高估"
  else "分歧"

/-- The `percentile_consensus` property of `QuantMetrics` (default 40/60 bands). -/
def percentile_consensus (m : QuantMetrics) : String :=
  get_percentile_consensus m 40 60

/-- The `trend_direction` property of `QuantMetrics`. -/
def trend_direction (m : QuantMetrics) : String :=
  let diff := m.percentile_60 - m.percentile_500
  if 20 < diff then "上升趋势"
  else if diff < -20 then "下降趋势"
  else "震荡"

/-- Python `max(prices)` (0 on the empty list, which the source never hits). -/
def listMax : List ℚ → ℚ
  | [] => 0
  | p :: ps => ps.foldl max p

/-- Python `min(prices)` (0 on the empty list, which the source never hits). -/
def listMin : List ℚ → ℚ
  | [] => 0
  | p :: ps => ps.foldl min p

/-- `calculate_percentile` from `strategy/indicators.py`. -/
def calculate_percentile (current_price : ℚ) (prices : List ℚ) : ℚ :=
  match prices with
  | [] => 50
  | p :: ps =>
    let max_price := listMax (p :: ps)
    let min_price := listMin (p :: ps)
    if max_price = min_price then 50
    else
      let percentile := (current_price - min_price) / (max_price - min_price) * 100
      max 0 (min 100 percentile)

/-- `get_dynamic_ma_threshold` from `strategy/indicators.py`. -/
def get_dynamic_ma_threshold (volatility : ℚ) : ℚ :=
  let threshold := max 0.3 (min 5.0 (volatility / 10));
  -threshold

/-- `get_dynamic_drop_threshold` from `strategy/indicators.py`. -/
def get_dynamic_drop_threshold (volatility : ℚ) : ℚ × ℚ :=
  let daily_volatility := volatility / 15.8
  let normal_threshold := -(max 0.20 (min 5.0 (daily_volatility * 1.5)))
  let severe_threshold := -(max 0.40 (min 8.0 (daily_volatility * 2.5)))
  (normal_threshold, severe_threshold)

/-! ## `strategy/asset_config.py`: asset classes and threshold registry -/

/-- `StrategyThresholds` from `strategy/asset_config.py`; `zone_thresholds`
is the (黄金坑, 低估, 高估, 过热) tuple. -/
structure StrategyThresholds where
  zone_thresholds : ℚ × ℚ × ℚ × ℚ
  ma_base_threshold : ℚ
  circuit_breaker_drop : ℚ
  circuit_breaker_rise : ℚ
  consensus_low_threshold : ℚ
  consensus_high_threshold : ℚ
  ai_weight : ℚ
  description : String

/-- `ASSET_THRESHOLDS[AssetClass.GOLD_ETF]`. -/
def goldEtfThresholds : StrategyThresholds :=
  { zone_thresholds := (15.0, 35.0, 65.0, 85.0)
    ma_base_threshold := -2.5
    circuit_breaker_drop := -8.0
    circuit_breaker_rise := 8.0
    consensus_low_threshold := 35.0
    consensus_high_threshold := 65.0
    ai_weight := 0.6
    description := "黄金避险资产：与股市负相关，高估不一定暂停" }

/-- `ASSET_THRESHOLDS[AssetClass.COMMODITY_CYCLE]`. -/
def commodityCycleThresholds : StrategyThresholds :=
  { zone_thresholds := (10.0, 30.0, 70.0, 90.0)
    ma_base_threshold := -4.0
    circuit_breaker_drop := -10.0
    circuit_breaker_rise := 10.0
    consensus_low_threshold := 30.0
    consensus_high_threshold := 70.0
    ai_weight := 0.5
    description := "周期商品：强周期高波动，需逆向思维" }

/-- `ASSET_THRESHOLDS[AssetClass.BOND_ENHANCED]`. -/
def bondEnhancedThresholds : StrategyThresholds :=
  { zone_thresholds := (20.0, 40.0, 60.0, 80.0)
    ma_base_threshold := -1.5
    circuit_breaker_drop := -3.0
    circuit_breaker_rise := 3.0
    consensus_low_threshold := 40.0
    consensus_high_threshold := 60.0
    ai_weight := 0.4
    description := "二级债基：含股票仓位，波动高于纯债" }

/-- `ASSET_THRESHOLDS[AssetClass.BOND_PURE]`. -/
def bondPureThresholds : StrategyThresholds :=
  { zone_thresholds := (25.0, 45.0, 55.0, 75.0)
    ma_base_threshold := -0.8
    circuit_breaker_drop := -1.5
    circuit_breaker_rise := 1.5
    consensus_low_threshold := 45.0
    consensus_high_threshold := 55.0
    ai_weight := 0.3
    description := "纯债基金：低波动利率敏感" }

/-- `ASSET_THRESHOLDS[AssetClass.DEFAULT_ETF]` (dataclass defaults 40/60 bands). -/
def defaultEtfThresholds : StrategyThresholds :=
  { zone_thresholds := (20.0, 40.0, 60.0, 80.0)
    ma_base_threshold := -3.0
    circuit_breaker_drop := -7.0
    circuit_breaker_rise := 7.0
    consensus_low_threshold := 40.0
    consensus_high_threshold := 60.0
    ai_weight := 0.5
    description := "默认ETF策略" }

/-- `ASSET_THRESHOLDS[AssetClass.DEFAULT_BOND]` (dataclass defaults 40/60 bands). -/
def defaultBondThresholds : StrategyThresholds :=
  { zone_thresholds := (20.0, 40.0, 60.0, 80.0)
    ma_base_threshold := -1.5
    circuit_breaker_drop := -3.0
    circuit_breaker_rise := 3.0
    consensus_low_threshold := 40.0
    consensus_high_threshold := 60.0
    ai_weight := 0.4
    description := "默认债券策略" }

/-- `get_thresholds` from `strategy/asset_config.py`: an unknown class string
(`ValueError` in `AssetClass(asset_class)`) falls back to `DEFAULT_ETF`. -/
def get_thresholds (asset_class : String) : StrategyThresholds :=
  if asset_class = "GOLD_ETF" then goldEtfThresholds
  else if asset_class = "COMMODITY_CYCLE" then commodityCycleThresholds
  else if asset_class = "BOND_ENHANCED" then bondEnhancedThresholds
  else if asset_class = "BOND_PURE" then bondPureThresholds
  else if asset_class = "DEFAULT_ETF" then defaultEtfThresholds
  else if asset_class = "DEFAULT_BOND" then defaultBondThresholds
  else defaultEtfThresholds

/-- `get_zone_name` from `strategy/asset_config.py`. -/
def get_zone_name (percentile : ℚ) (thresholds : StrategyThresholds) : String :=
  let z := thresholds.zone_thresholds
  if percentile < z.1 then "黄金坑"
  else if percentile < z.2.1 then "低估区"
  else if percentile < z.2.2.1 then "合理区"
  else if percentile < z.2.2.2 then "偏高区"
  else "高估区"

/-- `infer_asset_class` from `strategy/asset_config.py`. -/
def infer_asset_class (fund_type fund_name : String) : String :=
  let name_lower := fund_name.toLower
  if fund_type = "ETF_Feeder" then
    if strContains fund_name "黄金" || strContains name_lower "gold" then "GOLD_ETF"
    else if ["有色", "金属", "铜", "铝", "锌", "稀土", "钢铁", "煤炭", "石油", "原油"].any
        (fun kw => strContains fund_name kw) then "COMMODITY_CYCLE"
    else "DEFAULT_ETF"
  else if fund_type = "Bond" then
    if ["增强", "回报", "收益", "双债", "信用"].any (fun kw => strContains fund_name kw) then
      "BOND_ENHANCED"
    else "BOND_PURE"
  else "DEFAULT_ETF"

/-- The `if not asset_class: asset_class = infer_asset_class(...)` prologue
shared by both strategy evaluators. -/
def resolve_asset_class (asset_class : Option String) (fund_type fund_name : String) : String :=
  match asset_class with
  | none => infer_asset_class fund_type fund_name
  | some s => if s = "" then infer_asset_class fund_type fund_name else s

/-! ## `strategy/etf_strategy.py`: growth/equity-linked evaluator -/

/-- The `Decision` enumeration from `strategy/etf_strategy.py`. -/
inductive Decision where
  | DOUBLE_BUY
  | NORMAL_BUY
  | HOLD
  | STOP_BUY
deriving DecidableEq

/-- `Decision.value`: the Python enum's string payload. -/
def Decision.value : Decision → String
  | .DOUBLE_BUY => "双倍补仓"
  | .NORMAL_BUY => "正常定投"
  | .HOLD => "观望"
  | .STOP_BUY => "暂停定投"

/-- `StrategyResult` from `strategy/etf_strategy.py`. -/
structure StrategyResult where
  decision : Decision
  confidence : ℚ
  reasoning : String
  zone : String
  warnings : List String

/-- `x is not None and x < t` on an optional float. -/
def opt_lt (x : Option ℚ) (t : ℚ) : Bool :=
  match x with
  | some v => decide (v < t)
  | none => false

/-- `x is not None and x > t` on an optional float. -/
def opt_gt (x : Option ℚ) (t : ℚ) : Bool :=
  match x with
  | some v => decide (t < v)
  | none => false

/-- `evaluate_etf_strategy` from `strategy/etf_strategy.py`. The inner
decision block is modelled as a quadruple
(decision, confidence, reasoning, extra warnings appended by that block). -/
def evaluate_etf_strategy (metrics : QuantMetrics) (asset_class : Option String)
    (fund_name : String) (market_drop : Option ℚ) : StrategyResult :=
  let asset_class := resolve_asset_class asset_class "ETF_Feeder" fund_name
  let thresholds := get_thresholds asset_class
  let z := thresholds.zone_thresholds
  if opt_lt metrics.daily_change thresholds.circuit_breaker_drop then
    { decision := Decision.HOLD
      confidence := 0.3
      reasoning := "触发熔断：单日大跌 " ++ fmtQ ((metrics.daily_change).getD 0) ++
        "%，建议冷静观察，次日再决策"
      zone := "熔断"
      warnings := ["⚠️ 极端行情熔断：跌幅过大，暂停决策"] }
  else if opt_gt metrics.daily_change thresholds.circuit_breaker_rise then
    { decision := Decision.HOLD
      confidence := 0.3
      reasoning := "触发熔断：单日大涨 " ++ fmtQ ((metrics.daily_change).getD 0) ++
        "%，建议冷静观察，次日再决策"
      zone := "熔断"
      warnings := ["⚠️ 极端行情熔断：涨幅过大，暂停决策"] }
  else
    let percentile := metrics.percentile_250
    let consensus := percentile_consensus metrics
    let trend := trend_direction metrics
    let zone := get_zone_name percentile thresholds
    let volatility_threshold := get_dynamic_ma_threshold metrics.volatility_60
    let dynamic_ma_threshold := min volatility_threshold thresholds.ma_base_threshold
    let warnings : List String :=
      (if consensus = "分歧" then
        ["⚠️ 多周期分位分歧：60日=" ++ fmtQ metrics.percentile_60 ++ "%，250日=" ++
          fmtQ metrics.percentile_250 ++ "%，500日=" ++ fmtQ metrics.percentile_500 ++ "%"]
      else []) ++
      (if trend = "上升趋势" ∧ z.2.2.1 < percentile then
        ["📈 短期强于长期，可能处于趋势高点"] else []) ++
      (if trend = "下降趋势" ∧ percentile < z.2.1 then
        ["📉 短期弱于长期，可能仍有下跌空间"] else []) ++
      (if asset_class = "GOLD_ETF" ∧ percentile < z.2.2.2 then
        ["💡 黄金为避险资产，高估不一定暂停，需考虑对冲需求"]
      else if asset_class = "COMMODITY_CYCLE" then
        ["💡 周期资产易长期处于极端分位，需逆向思维"]
      else [])
    let dcre : Decision × ℚ × String × List String :=
      if percentile < z.1 then
        if consensus ∈ ["强低估", "弱低估"] then
          (Decision.DOUBLE_BUY, if consensus = "强低估" then 0.9 else 0.75,
            "250日分位 " ++ fmtQ percentile ++ "%（<" ++ fmtQ z.1 ++ "%），多周期共识「" ++
              consensus ++ "」，珍惜黄金坑加仓机会", [])
        else
          (Decision.NORMAL_BUY, 0.6,
            "250日分位 " ++ fmtQ percentile ++ "% 处于黄金坑，但多周期「" ++ consensus ++
              "」，建议正常定投观察",
            ["⚠️ 长期分位偏高，短期低估可能是假象"])
      else if percentile < z.2.1 then
        if consensus ∈ ["强低估", "弱低估"] then
          (Decision.NORMAL_BUY, 0.8,
            "250日分位 " ++ fmtQ percentile ++ "%，多周期共识「" ++ consensus ++
              "」，适合正常定投", [])
        else
          (Decision.NORMAL_BUY, 0.65,
            "250日分位 " ++ fmtQ percentile ++ "%，处于" ++ zone ++ "，可正常定投", [])
      else if percentile < z.2.2.1 then
        if metrics.ma_deviation < dynamic_ma_threshold then
          (Decision.NORMAL_BUY, 0.65,
            "250日分位 " ++ fmtQ percentile ++ "%，低于均线 " ++ fmtQ |metrics.ma_deviation| ++
              "%（阈值 " ++ fmtQ |dynamic_ma_threshold| ++ "%），可正常定投", [])
        else if metrics.ma_deviation < 0 then
          (Decision.NORMAL_BUY, 0.55,
            "250日分位 " ++ fmtQ percentile ++ "%，略低于均线，可正常定投", [])
        else
          (Decision.HOLD, 0.5,
            "250日分位 " ++ fmtQ percentile ++ "%，处于" ++ zone ++
              "且高于均线，可观望等待机会", [])
      else if percentile < z.2.2.2 then
        if consensus ∈ ["强高估", "弱高估"] then
          (Decision.HOLD, 0.85,
            "250日分位 " ++ fmtQ percentile ++ "%，多周期共识「" ++ consensus ++
              "」，严禁追高", [])
        else
          (Decision.HOLD, 0.7,
            "250日分位 " ++ fmtQ percentile ++ "%，处于" ++ zone ++ "，建议观望不追高", [])
      else
        if asset_class = "GOLD_ETF" then
          if opt_lt market_drop (-2.0) then
            (Decision.NORMAL_BUY, 0.65,
              "250日分位 " ++ fmtQ percentile ++ "%，黄金高估但大盘跌 " ++
                fmtQ |(market_drop).getD 0| ++ "%，对冲配置价值显现，建议正常定投",
              ["🛡️ 大盘下跌时黄金具备对冲价值"])
          else
            (Decision.HOLD, 0.6,
              "250日分位 " ++ fmtQ percentile ++ "%，黄金高估但具避险价值，建议观望而非暂停", [])
        else
          if consensus ∈ ["强高估", "弱高估"] then
            (Decision.STOP_BUY, 0.95,
              "250日分位 " ++ fmtQ percentile ++ "%，多周期共识「" ++ consensus ++
                "」，坚决暂停定投积攒弹药", [])
          else
            (Decision.STOP_BUY, 0.8,
              "250日分位 " ++ fmtQ percentile ++ "%，处于" ++ zone ++ "，建议暂停定投积攒弹药",
              if consensus = "分歧" then ["📊 多周期存在分歧，可小幅减少暂停力度"] else [])
    { decision := dcre.1
      confidence := dcre.2.1
      reasoning := dcre.2.2.1
      zone := zone
      warnings := warnings ++ dcre.2.2.2 }

/-! ## `strategy/bond_strategy.py`: income/defensive evaluator -/

/-- `BOND_OVERVALUED_PERCENTILE` from `strategy/bond_strategy.py`. -/
def BOND_OVERVALUED_PERCENTILE : ℚ := 90

/-- The `dynamic_thresholds` dict recorded inside a `BondSignal`. -/
structure DynamicThresholds where
  ma_threshold : ℚ
  drop_normal : ℚ
  drop_severe : ℚ
  volatility_60 : ℚ
  asset_class : String

/-- `BondSignal` from `strategy/bond_strategy.py`. -/
structure BondSignal where
  has_opportunity : Bool
  signal_type : String
  strength : ℚ
  is_overvalued : Bool
  dynamic_thresholds : Option DynamicThresholds

/-- Stable insertion of a (label, strength) pair into a strength-descending
list; together with `sortByStrengthDesc` this models Python's stable
`signals.sort(key=lambda x: x[1], reverse=True)`. -/
def insertByStrengthDesc (x : String × ℚ) : List (String × ℚ) → List (String × ℚ)
  | [] => [x]
  | y :: ys => if y.2 ≤ x.2 then x :: y :: ys else y :: insertByStrengthDesc x ys

/-- Stable sort by strength, descending. -/
def sortByStrengthDesc : List (String × ℚ) → List (String × ℚ)
  | [] => []
  | x :: xs => insertByStrengthDesc x (sortByStrengthDesc xs)

/-- `detect_bond_signal` from `strategy/bond_strategy.py`. -/
def detect_bond_signal (metrics : QuantMetrics) (asset_class : Option String) : BondSignal :=
  let thresholds := get_thresholds (orDefault asset_class "DEFAULT_BOND")
  let volatility_ma_threshold := get_dynamic_ma_threshold metrics.volatility_60
  let ma_threshold := min volatility_ma_threshold thresholds.ma_base_threshold
  let dn := get_dynamic_drop_threshold metrics.volatility_60
  let drop_normal := dn.1
  let drop_severe := dn.2
  let dynamic_thresholds : DynamicThresholds :=
    { ma_threshold := ma_threshold
      drop_normal := drop_normal
      drop_severe := drop_severe
      volatility_60 := metrics.volatility_60
      asset_class := orDefault asset_class "DEFAULT_BOND" }
  let is_overvalued : Bool := decide (BOND_OVERVALUED_PERCENTILE ≤ metrics.percentile_250)
  let signals : List (String × ℚ) :=
    (if metrics.ma_deviation < ma_threshold then
      [("跌破均线", min (|metrics.ma_deviation| / (|ma_threshold| * 3)) 1)]
    else []) ++
    (match metrics.daily_change with
    | some dc =>
      if dc < drop_normal then
        if dc < drop_severe then [("单日大跌", (1 : ℚ))]
        else
          [("单日大跌",
            min ((|dc| - |drop_normal|) / (|drop_severe| - |drop_normal|) * 0.5 + 0.5) 1)]
      else []
    | none => [])
  match signals with
  | [] =>
    { has_opportunity := false
      signal_type := "正常波动"
      strength := 0.0
      is_overvalued := is_overvalued
      dynamic_thresholds := some dynamic_thresholds }
  | s :: ss =>
    let sorted := sortByStrengthDesc (s :: ss)
    let best_signal := sorted.headD s
    let total_strength := min (((s :: ss).map (fun x => x.2)).sum) 1
    let signal_type :=
      if 1 < (s :: ss).length then String.intercalate " + " (sorted.map (fun x => x.1))
      else best_signal.1
    { has_opportunity := true
      signal_type := signal_type
      strength := total_strength
      is_overvalued := is_overvalued
      dynamic_thresholds := some dynamic_thresholds }

/-- `evaluate_bond_strategy` from `strategy/bond_strategy.py`. The overvalued
and opportunity blocks are modelled as tuples carrying
(decision, confidence, reasoning, extra warnings). -/
def evaluate_bond_strategy (metrics : QuantMetrics) (asset_class : Option String)
    (fund_name : String) : StrategyResult :=
  let asset_class := resolve_asset_class asset_class "Bond" fund_name
  let thresholds := get_thresholds asset_class
  let circuit_breaker := thresholds.circuit_breaker_drop
  if opt_lt metrics.daily_change circuit_breaker then
    { decision := Decision.HOLD
      confidence := 0.3
      reasoning := "触发熔断：债券单日大跌 " ++ fmtQ ((metrics.daily_change).getD 0) ++
        "%（阈值 " ++ fmtQ circuit_breaker ++ "%），极为罕见，建议冷静观察后决策"
      zone := "熔断"
      warnings := ["⚠️ 债券极端行情：跌幅罕见（" ++ asset_class ++ "），可能有重大风险事件"] }
  else
    let signal := detect_bond_signal metrics (some asset_class)
    let consensus := percentile_consensus metrics
    let trend := trend_direction metrics
    let warnings : List String :=
      (match signal.dynamic_thresholds with
      | some dt =>
        ["📊 动态阈值：均线偏离 " ++ fmtQ dt.ma_threshold ++ "%，大跌 " ++
          fmtQ dt.drop_normal ++ "%/" ++ fmtQ dt.drop_severe ++ "%（基于 " ++
          fmtQ dt.volatility_60 ++ "% 年化波动率）"]
      | none => []) ++
      (if consensus = "分歧" then
        ["⚠️ 多周期分位分歧：60日=" ++ fmtQ metrics.percentile_60 ++ "%，250日=" ++
          fmtQ metrics.percentile_250 ++ "%，500日=" ++ fmtQ metrics.percentile_500 ++ "%"]
      else []) ++
      (if trend = "上升趋势" then ["📈 债券短期走强，利率可能处于下行周期"] else []) ++
      (if trend = "下降趋势" then ["📉 债券短期走弱，需关注利率上行风险"] else [])
    if signal.is_overvalued then
      let dcrw : Decision × ℚ × String × List String :=
        if signal.has_opportunity ∧ 0.8 < signal.strength then
          (Decision.NORMAL_BUY, 0.5,
            "虽有" ++ signal.signal_type ++ "信号（强度 " ++ fmtQ signal.strength ++
              "），但250日分位 " ++ fmtQ metrics.percentile_250 ++ "% 偏高，建议小额定投",
            ["⚠️ 高估区补仓需控制仓位，建议减半"])
        else
          (Decision.HOLD, 0.7,
            "250日分位 " ++ fmtQ metrics.percentile_250 ++
              "% 处于高位，债券估值偏贵，建议观望", [])
      let confidence := if consensus = "强高估" then min 0.95 (dcrw.2.1 + 0.1) else dcrw.2.1
      let reasoning :=
        if consensus = "强高估" then dcrw.2.2.1 ++ "，多周期共识「强高估」" else dcrw.2.2.1
      { decision := dcrw.1
        confidence := confidence
        reasoning := reasoning
        zone := "高估区"
        warnings := warnings ++ dcrw.2.2.2 }
    else if signal.has_opportunity then
      let dcr : Decision × ℚ × String :=
        if 0.7 < signal.strength then
          let base_reasoning := "债券出现" ++ signal.signal_type ++ "信号（强度 " ++
            fmtQ signal.strength ++ "），难得的加仓机会"
          if consensus ∈ ["强低估", "弱低估"] then
            (Decision.DOUBLE_BUY, min 0.95 (0.8 + 0.1),
              base_reasoning ++ "，多周期共识「" ++ consensus ++ "」")
          else
            (Decision.DOUBLE_BUY, 0.8, base_reasoning)
        else
          (Decision.NORMAL_BUY, 0.7, "债券" ++ signal.signal_type ++ "，可适度加仓")
      { decision := dcr.1
        confidence := dcr.2.1
        reasoning := dcr.2.2
        zone := "机会区"
        warnings := warnings }
    else if asset_class = "BOND_ENHANCED" then
      { decision := Decision.NORMAL_BUY
        confidence := 0.6
        reasoning :=
          match metrics.daily_change with
          | some dc =>
            if 0 < dc then "二级债基上涨 " ++ fmtQ dc ++ "%，保持定投节奏"
            else "二级债基微跌 " ++ fmtQ dc ++ "%，正是定投好时机"
          | none => "二级债基平稳运行，建议保持定投节奏"
        zone := "正常区"
        warnings := warnings }
    else
      { decision := Decision.HOLD
        confidence := 0.6
        reasoning :=
          match metrics.daily_change with
          | some dc =>
            if 0 < dc then "债券今日上涨 " ++ fmtQ dc ++ "%，保持持有即可"
            else "债券今日微跌 " ++ fmtQ dc ++ "%，属正常波动无需担忧"
          | none => "债券平稳运行，保持持有即可"
        zone := "正常区"
        warnings := warnings }

/-! ## `ai/ai_decision.py`: qualitative result and confidence conversions -/

/-- `AIDecisionResult` from `ai/ai_decision.py`. -/
structure AIDecisionResult where
  decision : String
  confidence : String
  reasoning : String
  asset_class : String
  raw_response : Option String

/-- `confidence_to_score` from `ai/ai_decision.py`:
`{"高": 0.9, "中": 0.6, "低": 0.3}.get(confidence, 0.5)`. -/
def confidence_to_score (confidence : String) : ℚ :=
  if confidence = "高" then 0.9
  else if confidence = "中" then 0.6
  else if confidence = "低" then 0.3
  else 0.5

/-- `score_to_confidence` from `ai/ai_decision.py`. -/
def score_to_confidence (score : ℚ) : String :=
  if 0.75 ≤ score then "高"
  else if 0.45 ≤ score then "中"
  else "低"

/-! ## `strategy/decision_synthesizer.py` -/

/-- The four canonical decision labels, i.e. the keys of `DECISION_PRIORITY`. -/
def canonical_decisions : List String := ["双倍补仓", "正常定投", "观望", "暂停定投"]

/-- `_decision_to_priority`: `DECISION_PRIORITY.get(decision, 2)`. -/
def decision_to_priority (decision : String) : ℤ :=
  if decision = "双倍补仓" then 4
  else if decision = "正常定投" then 3
  else if decision = "观望" then 2
  else if decision = "暂停定投" then 1
  else 2

/-- `_priority_to_decision`: `PRIORITY_TO_DECISION.get(priority, "观望")`. -/
def priority_to_decision (priority : ℤ) : String :=
  if priority = 4 then "双倍补仓"
  else if priority = 3 then "正常定投"
  else if priority = 2 then "观望"
  else if priority = 1 then "暂停定投"
  else "观望"

/-- `_get_conservative_decision` from `strategy/decision_synthesizer.py`.
Python's `//` on the nonnegative operands involved agrees with `ℤ` division. -/
def get_conservative_decision (d1 d2 : String) : String :=
  let p1 := decision_to_priority d1
  let p2 := decision_to_priority d2
  let diff := |p1 - p2|
  if 2 ≤ diff then
    let avg := (p1 + p2 + 1) / 2
    priority_to_decision avg
  else
    priority_to_decision (max (min p1 p2) 2)

/-- `SynthesizedDecision` from `strategy/decision_synthesizer.py`. -/
structure SynthesizedDecision where
  strategy_decision : String
  strategy_confidence : ℚ
  strategy_reasoning : String
  ai_decision : String
  ai_confidence : String
  ai_reasoning : String
  final_decision : String
  final_confidence : String
  final_reasoning : String
  is_consistent : Bool
  synthesis_method : String
  asset_class : String
  warnings : List String

/-- `synthesize_decisions` from `strategy/decision_synthesizer.py`. -/
def synthesize_decisions (strategy_result : StrategyResult)
    (ai_result : Option AIDecisionResult) (asset_class : String) : SynthesizedDecision :=
  let warnings := strategy_result.warnings
  let strategy_decision := strategy_result.decision.value
  let strategy_confidence := strategy_result.confidence
  match ai_result with
  | none =>
    { strategy_decision := strategy_decision
      strategy_confidence := strategy_confidence
      strategy_reasoning := strategy_result.reasoning
      ai_decision := "不可用"
      ai_confidence := "低"
      ai_reasoning := "AI服务暂时不可用"
      final_decision := strategy_decision
      final_confidence := score_to_confidence (strategy_confidence * 0.8)
      final_reasoning := strategy_result.reasoning
      is_consistent := true
      synthesis_method := "降级模式：仅策略决策"
      asset_class := asset_class
      warnings := warnings ++ ["AI决策不可用，仅参考策略决策"] }
  | some ai =>
    let ai_decision := ai.decision
    let ai_confidence_str := ai.confidence
    let ai_confidence := confidence_to_score ai_confidence_str
    let thresholds := get_thresholds asset_class
    let ai_weight := thresholds.ai_weight
    let strategy_weight := 1 - ai_weight
    if strategy_decision = ai_decision then
      let combined_confidence := min 1.0 (strategy_confidence * 0.5 + ai_confidence * 0.5 + 0.1)
      { strategy_decision := strategy_decision
        strategy_confidence := strategy_confidence
        strategy_reasoning := strategy_result.reasoning
        ai_decision := ai_decision
        ai_confidence := ai_confidence_str
        ai_reasoning := ai.reasoning
        final_decision := strategy_decision
        final_confidence := score_to_confidence combined_confidence
        final_reasoning := "策略与AI一致建议「" ++ strategy_decision ++ "」"
        is_consistent := true
        synthesis_method := "一致性加成"
        asset_class := asset_class
        warnings := warnings }
    else
      let diff := |decision_to_priority strategy_decision - decision_to_priority ai_decision|
      if 2 ≤ diff then
        let final_decision := get_conservative_decision strategy_decision ai_decision
        { strategy_decision := strategy_decision
          strategy_confidence := strategy_confidence
          strategy_reasoning := strategy_result.reasoning
          ai_decision := ai_decision
          ai_confidence := ai_confidence_str
          ai_reasoning := ai.reasoning
          final_decision := final_decision
          final_confidence := score_to_confidence 0.5
          final_reasoning := "策略建议「" ++ strategy_decision ++ "」与AI建议「" ++ ai_decision ++
            "」分歧较大，保守建议「" ++ final_decision ++ "」"
          is_consistent := false
          synthesis_method := "分歧保守处理"
          asset_class := asset_class
          warnings := warnings ++
            ["策略(" ++ strategy_decision ++ ")与AI(" ++ ai_decision ++ ")存在分歧"] }
      else
        let aiLeads : Bool := decide (strategy_confidence < ai_confidence ∧ 0.5 ≤ ai_weight)
        let final_decision := if aiLeads then ai_decision else strategy_decision
        let combined_confidence :=
          if aiLeads then ai_confidence * ai_weight + strategy_confidence * strategy_weight
          else strategy_confidence * strategy_weight + ai_confidence * ai_weight
        let synthesis_method :=
          if aiLeads then "AI主导 (权重" ++ fmtQ ai_weight ++ ")"
          else "策略主导 (权重" ++ fmtQ strategy_weight ++ ")"
        { strategy_decision := strategy_decision
          strategy_confidence := strategy_confidence
          strategy_reasoning := strategy_result.reasoning
          ai_decision := ai_decision
          ai_confidence := ai_confidence_str
          ai_reasoning := ai.reasoning
          final_decision := final_decision
          final_confidence := score_to_confidence combined_confidence
          final_reasoning := "综合策略「" ++ strategy_decision ++ "」和AI「" ++ ai_decision ++
            "」，建议「" ++ final_decision ++ "」"
          is_consistent := false
          synthesis_method := synthesis_method
          asset_class := asset_class
          warnings := warnings }

/-! ## Helper lemmas -/

theorem foldl_min_le (ps : List ℚ) (a : ℚ) : ps.foldl min a ≤ a := by
  induction ps generalizing a with
  | nil => simp
  | cons x xs ih => exact le_trans (ih (min a x)) (min_le_left a x)

theorem le_foldl_max (ps : List ℚ) (a : ℚ) : a ≤ ps.foldl max a := by
  induction ps generalizing a with
  | nil => simp
  | cons x xs ih => exact le_trans (le_max_left a x) (ih (max a x))

theorem foldl_max_const (ps : List ℚ) (a : ℚ) (h : ∀ x ∈ ps, x = a) :
    ps.foldl max a = a := by
  induction ps with
  | nil => rfl
  | cons x xs ih =>
    have hx : x = a := h x (by simp)
    have : ∀ y ∈ xs, y = a := fun y hy => h y (by simp [hy])
    simp [hx, ih this]

theorem foldl_min_const (ps : List ℚ) (a : ℚ) (h : ∀ x ∈ ps, x = a) :
    ps.foldl min a = a := by
  induction ps with
  | nil => rfl
  | cons x xs ih =>
    have hx : x = a := h x (by simp)
    have : ∀ y ∈ xs, y = a := fun y hy => h y (by simp [hy])
    simp [hx, ih this]

theorem listMin_le_listMax (l : List ℚ) (hl : l ≠ []) : listMin l ≤ listMax l := by
  cases l with
  | nil => exact absurd rfl hl
  | cons p ps =>
    calc listMin (p :: ps) ≤ p := foldl_min_le ps p
    _ ≤ listMax (p :: ps) := le_foldl_max ps p

/-! ## Claim theorems -/

/-- C3: for every non-empty price list, `calculate_percentile` stays in
[0, 100]; the list minimum maps to 0 and the list maximum to 100 whenever
the extremes differ; any constant list (and the empty list) yields exactly
50, the division being guarded so a zero denominator is never evaluated. -/
theorem calculate_percentile_bounds
    (current : ℚ) (prices : List ℚ) (x v : ℚ) (cs : List ℚ) :
    (prices ≠ [] →
      0 ≤ calculate_percentile current prices ∧ calculate_percentile current prices ≤ 100) ∧
    (prices ≠ [] → listMax prices ≠ listMin prices →
      calculate_percentile (listMin prices) prices = 0 ∧
      calculate_percentile (listMax prices) prices = 100) ∧
    ((∀ y ∈ cs, y = v) → calculate_percentile x cs = 50) ∧
    calculate_percentile x [] = 50 := by
  refine ⟨?_, ?_, ?_, rfl⟩
  · intro hne
    cases prices with
    | nil => exact absurd rfl hne
    | cons p ps =>
      simp only [calculate_percentile]
      split
      · norm_num
      · constructor
        · exact le_max_left 0 _
        · exact max_le (by norm_num) (min_le_left 100 _)
  · intro hne hmm
    cases prices with
    | nil => exact absurd rfl hne
    | cons p ps =>
      simp only [calculate_percentile, if_neg hmm]
      constructor
      · have : (listMin (p :: ps) - listMin (p :: ps)) /
            (listMax (p :: ps) - listMin (p :: ps)) * 100 = 0 := by
          rw [sub_self, zero_div, zero_mul]
        rw [this]
        norm_num
      · have hd : listMax (p :: ps) - listMin (p :: ps) ≠ 0 := sub_ne_zero.mpr hmm
        have : (listMax (p :: ps) - listMin (p :: ps)) /
            (listMax (p :: ps) - listMin (p :: ps)) * 100 = 100 := by
          rw [div_self hd, one_mul]
        rw [this]
        norm_num
  · intro hconst
    cases cs with
    | nil => rfl
    | cons c cs' =>
      have hc : c = v := hconst c (by simp)
      have hcs : ∀ y ∈ cs', y = c := by
        intro y hy
        rw [hconst y (by simp [hy]), hc]
      have hmax : listMax (c :: cs') = c := foldl_max_const cs' c hcs
      have hmin : listMin (c :: cs') = c := foldl_min_const cs' c hcs
      simp [calculate_percentile, hmax, hmin]

/-- Witness for C3 at a concrete list. -/
theorem calculate_percentile_bounds_witness :
    (0 ≤ calculate_percentile 2 [1, 3, 2] ∧ calculate_percentile 2 [1, 3, 2] ≤ 100) ∧
    (calculate_percentile (listMin [1, 3, 2]) [1, 3, 2] = 0 ∧
      calculate_percentile (listMax [1, 3, 2]) [1, 3, 2] = 100) ∧
    calculate_percentile 7 [5, 5, 5] = 50 := by
  obtain ⟨h1, h2, h3, -⟩ := calculate_percentile_bounds 2 [1, 3, 2] 7 5 [5, 5, 5]
  exact ⟨h1 (by decide), h2 (by decide) (by decide), h3 (by decide)⟩

/-- C8: for every volatility ≥ 0, the dynamic moving-average threshold lies
in [-5.0, -0.3], and the dynamic drop thresholds (normal, severe) are both
strictly negative with severe ≤ normal. -/
theorem dynamic_thresholds_bounded (v : ℚ) (h : 0 ≤ v) :
    (-5 ≤ get_dynamic_ma_threshold v ∧ get_dynamic_ma_threshold v ≤ -0.3) ∧
    ((get_dynamic_drop_threshold v).1 < 0 ∧ (get_dynamic_drop_threshold v).2 < 0 ∧
      (get_dynamic_drop_threshold v).2 ≤ (get_dynamic_drop_threshold v).1) := by
  have hdv : (0 : ℚ) ≤ v / 15.8 := by positivity
  constructor
  · simp only [get_dynamic_ma_threshold]
    have h1 : min (5.0 : ℚ) (v / 10) ≤ 5.0 := min_le_left _ _
    have h2 : (0.3 : ℚ) ≤ max 0.3 (min 5.0 (v / 10)) := le_max_left _ _
    have h3 : max (0.3 : ℚ) (min 5.0 (v / 10)) ≤ 5.0 := max_le (by norm_num) h1
    constructor <;> linarith
  · simp only [get_dynamic_drop_threshold]
    have hA : (0.20 : ℚ) ≤ max 0.20 (min 5.0 (v / 15.8 * 1.5)) := le_max_left _ _
    have hB : (0.40 : ℚ) ≤ max 0.40 (min 8.0 (v / 15.8 * 2.5)) := le_max_left _ _
    have hAB : max (0.20 : ℚ) (min 5.0 (v / 15.8 * 1.5)) ≤
        max 0.40 (min 8.0 (v / 15.8 * 2.5)) := by
      apply max_le
      · linarith
      · refine le_trans (le_min ?_ ?_) (le_max_right _ _)
        · exact le_trans (min_le_left _ _) (by norm_num)
        · exact le_trans (min_le_right _ _) (by nlinarith)
    exact ⟨by linarith, by linarith, by linarith⟩

/-- Witness for C8 at volatility 10. -/
theorem dynamic_thresholds_bounded_witness :
    (-5 ≤ get_dynamic_ma_threshold 10 ∧ get_dynamic_ma_threshold 10 ≤ -0.3) ∧
    ((get_dynamic_drop_threshold 10).1 < 0 ∧ (get_dynamic_drop_threshold 10).2 < 0 ∧
      (get_dynamic_drop_threshold 10).2 ≤ (get_dynamic_drop_threshold 10).1) :=
  dynamic_thresholds_bounded 10 (by norm_num)

/-- C10: the label-to-score table (高 0.9 / 中 0.6 / 低 0.3) composed with the
score-to-label conversion (breakpoints 0.75 and 0.45) is the identity on the
three canonical labels, and every other string scores 0.5, which converts
back to the medium label. -/
theorem confidence_label_roundtrip (s : String) :
    ((s = "高" ∨ s = "中" ∨ s = "低") →
      score_to_confidence (confidence_to_score s) = s) ∧
    (¬(s = "高" ∨ s = "中" ∨ s = "低") →
      confidence_to_score s = 0.5 ∧ score_to_confidence (confidence_to_score s) = "中") := by
  constructor
  · rintro (rfl | rfl | rfl)
    · rw [show confidence_to_score "高" = 0.9 from rfl]
      norm_num [score_to_confidence]
    · rw [show confidence_to_score "中" = 0.6 from rfl]
      norm_num [score_to_confidence]
    · rw [show confidence_to_score "低" = 0.3 from rfl]
      norm_num [score_to_confidence]
  · intro hs
    push_neg at hs
    obtain ⟨h1, h2, h3⟩ := hs
    simp only [confidence_to_score, if_neg h1, if_neg h2, if_neg h3]
    norm_num [score_to_confidence]

/-- Witness for C10 at the high label and at a non-canonical string. -/
theorem confidence_label_roundtrip_witness :
    score_to_confidence (confidence_to_score "高") = "高" ∧
    confidence_to_score "85%" = 0.5 := by
  refine ⟨(confidence_label_roundtrip "高").1 (Or.inl rfl), ?_⟩
  exact ((confidence_label_roundtrip "85%").2 (by decide)).1

/-- C5: with the qualitative result absent, `synthesize_decisions` totally
(never raising) returns the quantitative decision, downgrades the confidence
to `score_to_confidence` of 0.8 times the quantitative confidence, reports
the degraded synthesis method, and appends the degradation warning. -/
theorem synthesize_degraded_mode (sr : StrategyResult) (ac : String) :
    (synthesize_decisions sr none ac).final_decision = sr.decision.value ∧
    (synthesize_decisions sr none ac).final_confidence =
      score_to_confidence (sr.confidence * 0.8) ∧
    (synthesize_decisions sr none ac).synthesis_method = "降级模式：仅策略决策" ∧
    (synthesize_decisions sr none ac).warnings =
      sr.warnings ++ ["AI决策不可用，仅参考策略决策"] :=
  ⟨rfl, rfl, rfl, rfl⟩

theorem circuit_breaker_drop_lt_rise (s : String) :
    (get_thresholds s).circuit_breaker_drop < (get_thresholds s).circuit_breaker_rise := by
  unfold get_thresholds
  split_ifs <;>
    norm_num [goldEtfThresholds, commodityCycleThresholds, bondEnhancedThresholds,
      bondPureThresholds, defaultEtfThresholds, defaultBondThresholds]

/-- C1: a daily change below the resolved asset class's circuit-breaker drop
limit (or, for the ETF evaluator, above the rise limit) makes the evaluator
return Hold with confidence exactly 0.3 and zone "熔断", for every metrics
bundle — no further rule influences the result. -/
theorem circuit_breaker_short_circuits
    (m : QuantMetrics) (ac : Option String) (fn : String) (md : Option ℚ) (d : ℚ)
    (hd : m.daily_change = some d) :
    (d < (get_thresholds (resolve_asset_class ac "ETF_Feeder" fn)).circuit_breaker_drop ∨
        (get_thresholds (resolve_asset_class ac "ETF_Feeder" fn)).circuit_breaker_rise < d →
      (evaluate_etf_strategy m ac fn md).decision = Decision.HOLD ∧
      (evaluate_etf_strategy m ac fn md).confidence = 0.3 ∧
      (evaluate_etf_strategy m ac fn md).zone = "熔断") ∧
    (d < (get_thresholds (resolve_asset_class ac "Bond" fn)).circuit_breaker_drop →
      (evaluate_bond_strategy m ac fn).decision = Decision.HOLD ∧
      (evaluate_bond_strategy m ac fn).confidence = 0.3 ∧
      (evaluate_bond_strategy m ac fn).zone = "熔断") := by
  constructor
  · intro h
    rcases h with h | h
    · have hb : opt_lt m.daily_change
          (get_thresholds (resolve_asset_class ac "ETF_Feeder" fn)).circuit_breaker_drop
          = true := by
        simp [opt_lt, hd, h]
      simp [evaluate_etf_strategy, hb]
    · have hdr := circuit_breaker_drop_lt_rise (resolve_asset_class ac "ETF_Feeder" fn)
      have hb1 : opt_lt m.daily_change
          (get_thresholds (resolve_asset_class ac "ETF_Feeder" fn)).circuit_breaker_drop
          = false := by
        simp [opt_lt, hd]
        linarith
      have hb2 : opt_gt m.daily_change
          (get_thresholds (resolve_asset_class ac "ETF_Feeder" fn)).circuit_breaker_rise
          = true := by
        simp [opt_gt, hd, h]
      simp [evaluate_etf_strategy, hb1, hb2]
  · intro h
    have hb : opt_lt m.daily_change
        (get_thresholds (resolve_asset_class ac "Bond" fn)).circuit_breaker_drop = true := by
      simp [opt_lt, hd, h]
    simp [evaluate_bond_strategy, hb]

/-- Metrics bundle builder used by the concrete witnesses (the non-percentile
fields mirror the repository's own test fixture `_make_metrics`). -/
def mkTestMetrics (p60 p250 p500 dev vol : ℚ) (dc : Option ℚ) : QuantMetrics :=
  { percentile_60 := p60
    percentile_250 := p250
    percentile_500 := p500
    ma_60 := 1.0
    ma_deviation := dev
    max_250 := 1.2
    min_250 := 0.8
    drawdown := some 0
    drawdown_60 := some 0
    volatility_60 := vol
    daily_change := dc }

/-- Witness for C1: a −9% day on the default ETF class trips both breakers. -/
theorem circuit_breaker_short_circuits_witness :
    (evaluate_etf_strategy (mkTestMetrics 30 30 30 0 10 (some (-9)))
      (some "DEFAULT_ETF") "" none).zone = "熔断" ∧
    (evaluate_bond_strategy (mkTestMetrics 30 30 30 0 10 (some (-9)))
      (some "DEFAULT_ETF") "").decision = Decision.HOLD := by
  obtain ⟨h1, h2⟩ := circuit_breaker_short_circuits
    (mkTestMetrics 30 30 30 0 10 (some (-9))) (some "DEFAULT_ETF") "" none (-9) rfl
  refine ⟨(h1 (Or.inl ?_)).2.2, (h2 ?_).1⟩
  · simp [resolve_asset_class, get_thresholds, defaultEtfThresholds]
    norm_num
  · simp [resolve_asset_class, get_thresholds, defaultEtfThresholds]
    norm_num

theorem decision_value_canonical (d : Decision) : d.value ∈ canonical_decisions := by
  cases d <;> simp [Decision.value, canonical_decisions]

theorem priority_to_decision_canonical (p : ℤ) :
    priority_to_decision p ∈ canonical_decisions := by
  unfold priority_to_decision
  split_ifs <;> simp [canonical_decisions]

theorem conservative_canonical (d1 d2 : String) :
    get_conservative_decision d1 d2 ∈ canonical_decisions := by
  simp only [get_conservative_decision]
  split_ifs <;> apply priority_to_decision_canonical

/-- C2: whenever the qualitative decision label (when present) is one of the
four canonical labels — as the parser guarantees — `synthesize_decisions`
returns a final decision drawn from exactly those four labels. -/
theorem synthesize_final_decision_canonical
    (sr : StrategyResult) (ai : Option AIDecisionResult) (ac : String)
    (h : ∀ a, ai = some a → a.decision ∈ canonical_decisions) :
    (synthesize_decisions sr ai ac).final_decision ∈ canonical_decisions := by
  cases ai with
  | none => exact decision_value_canonical sr.decision
  | some a =>
    have ha := h a rfl
    simp only [synthesize_decisions]
    split_ifs with h1 h2 h3
    · exact decision_value_canonical sr.decision
    · exact conservative_canonical _ _
    · exact ha
    · exact decision_value_canonical sr.decision

/-- Witness for C2 with a concrete strategy/AI pair. -/
theorem synthesize_final_decision_canonical_witness :
    (synthesize_decisions ⟨Decision.HOLD, 0.5, "r", "z", []⟩
      (some ⟨"正常定投", "高", "r", "DEFAULT_ETF", none⟩)
      "DEFAULT_ETF").final_decision ∈ canonical_decisions :=
  synthesize_final_decision_canonical ⟨Decision.HOLD, 0.5, "r", "z", []⟩
    (some ⟨"正常定投", "高", "r", "DEFAULT_ETF", none⟩) "DEFAULT_ETF"
    (by intro a ha; injection ha with h; subst h; decide)

theorem decision_to_priority_cases (d : String) :
    decision_to_priority d = 1 ∨ decision_to_priority d = 2 ∨
    decision_to_priority d = 3 ∨ decision_to_priority d = 4 := by
  unfold decision_to_priority
  split_ifs <;> norm_num

/-- C4: when the two verdicts' priorities differ by at least 2,
`synthesize_decisions` returns the decision of priority `(p1+p2+1)/2`
(integer division, +1 bias toward Hold), fixes the combined confidence at
0.5, records the divergence warning, and the final priority lies strictly
between the two input priorities. -/
theorem synthesize_divergence_conservative
    (sr : StrategyResult) (a : AIDecisionResult) (ac : String)
    (h : 2 ≤ |decision_to_priority sr.decision.value - decision_to_priority a.decision|) :
    (synthesize_decisions sr (some a) ac).final_decision =
      priority_to_decision ((decision_to_priority sr.decision.value +
        decision_to_priority a.decision + 1) / 2) ∧
    (synthesize_decisions sr (some a) ac).final_confidence = score_to_confidence 0.5 ∧
    (synthesize_decisions sr (some a) ac).warnings =
      sr.warnings ++ ["策略(" ++ sr.decision.value ++ ")与AI(" ++ a.decision ++ ")存在分歧"] ∧
    min (decision_to_priority sr.decision.value) (decision_to_priority a.decision) <
      decision_to_priority ((synthesize_decisions sr (some a) ac).final_decision) ∧
    decision_to_priority ((synthesize_decisions sr (some a) ac).final_decision) <
      max (decision_to_priority sr.decision.value) (decision_to_priority a.decision) := by
  have hne : ¬ (sr.decision.value = a.decision) := by
    intro he
    rw [he] at h
    simp at h
  have key : (synthesize_decisions sr (some a) ac).final_decision =
      priority_to_decision ((decision_to_priority sr.decision.value +
        decision_to_priority a.decision + 1) / 2) ∧
      (synthesize_decisions sr (some a) ac).final_confidence = score_to_confidence 0.5 ∧
      (synthesize_decisions sr (some a) ac).warnings =
        sr.warnings ++ ["策略(" ++ sr.decision.value ++ ")与AI(" ++ a.decision ++ ")存在分歧"] := by
    simp only [synthesize_decisions, get_conservative_decision, hne, h, if_true, if_false,
      ite_true, ite_false]
    refine ⟨?_, ?_, ?_⟩ <;> trivial
  refine ⟨key.1, key.2.1, key.2.2, ?_, ?_⟩ <;>
  · rw [key.1]
    obtain h1 | h1 | h1 | h1 := decision_to_priority_cases sr.decision.value <;>
      obtain h2 | h2 | h2 | h2 := decision_to_priority_cases a.decision <;>
      rw [h1, h2] at h ⊢ <;>
      first
        | exact absurd h (by decide)
        | decide

/-- Witness for C4: DoubleBuy (priority 4) against StopBuy (priority 1). -/
theorem synthesize_divergence_conservative_witness :
    (synthesize_decisions ⟨Decision.DOUBLE_BUY, 0.9, "r", "z", []⟩
      (some ⟨"暂停定投", "高", "r", "DEFAULT_ETF", none⟩) "DEFAULT_ETF").final_decision =
      priority_to_decision ((decision_to_priority (Decision.DOUBLE_BUY).value +
        decision_to_priority "暂停定投" + 1) / 2) ∧
    (synthesize_decisions ⟨Decision.DOUBLE_BUY, 0.9, "r", "z", []⟩
      (some ⟨"暂停定投", "高", "r", "DEFAULT_ETF", none⟩) "DEFAULT_ETF").final_confidence =
      score_to_confidence 0.5 := by
  obtain ⟨h1, h2, -⟩ := synthesize_divergence_conservative
    ⟨Decision.DOUBLE_BUY, 0.9, "r", "z", []⟩
    ⟨"暂停定投", "高", "r", "DEFAULT_ETF", none⟩ "DEFAULT_ETF" (by decide)
  exact ⟨h1, h2⟩

/-- C6: with a low/high consensus band pair (low ≤ high),
`get_percentile_consensus` answers 强低估 exactly when all three percentile
windows are strictly below the low band, and 强高估 exactly when all three
are strictly above the high band. -/
theorem consensus_strong_iff (m : QuantMetrics) (lo hi : ℚ) (hband : lo ≤ hi) :
    (get_percentile_consensus m lo hi = "强低估" ↔
      (m.percentile_60 < lo ∧ m.percentile_250 < lo ∧ m.percentile_500 < lo)) ∧
    (get_percentile_consensus m lo hi = "强高估" ↔
      (hi < m.percentile_60 ∧ hi < m.percentile_250 ∧ hi < m.percentile_500)) := by
  have county : ((if m.percentile_60 < lo then 1 else 0) +
      (if m.percentile_250 < lo then 1 else 0) +
      (if m.percentile_500 < lo then 1 else 0) : ℕ) = 3 ↔
      (m.percentile_60 < lo ∧ m.percentile_250 < lo ∧ m.percentile_500 < lo) := by
    by_cases hx : m.percentile_60 < lo <;> by_cases hy : m.percentile_250 < lo <;>
      by_cases hz : m.percentile_500 < lo <;>
      simp only [hx, hy, hz, if_true, if_false] <;> decide
  have countg : ((if hi < m.percentile_60 then 1 else 0) +
      (if hi < m.percentile_250 then 1 else 0) +
      (if hi < m.percentile_500 then 1 else 0) : ℕ) = 3 ↔
      (hi < m.percentile_60 ∧ hi < m.percentile_250 ∧ hi < m.percentile_500) := by
    by_cases hx : hi < m.percentile_60 <;> by_cases hy : hi < m.percentile_250 <;>
      by_cases hz : hi < m.percentile_500 <;>
      simp only [hx, hy, hz, if_true, if_false] <;> decide
  simp only [get_percentile_consensus]
  set L : ℕ := (if m.percentile_60 < lo then 1 else 0) +
    (if m.percentile_250 < lo then 1 else 0) +
    (if m.percentile_500 < lo then 1 else 0) with hLdef
  set H : ℕ := (if hi < m.percentile_60 then 1 else 0) +
    (if hi < m.percentile_250 then 1 else 0) +
    (if hi < m.percentile_500 then 1 else 0) with hHdef
  constructor
  · constructor
    · intro hres
      split_ifs at hres with c1 c2 c3 c4
      · exact county.mp c1
      · simp at hres
      · simp at hres
      · simp at hres
      · simp at hres
    · intro hc
      rw [if_pos (county.mpr hc)]
  · constructor
    · intro hres
      split_ifs at hres with c1 c2 c3 c4
      · simp at hres
      · simp at hres
      · exact countg.mp c3
      · simp at hres
      · simp at hres
    · intro hc
      have hg3 := countg.mpr hc
      have l1 : ¬ m.percentile_60 < lo := fun hlt => absurd hc.1 (by linarith)
      have l2 : ¬ m.percentile_250 < lo := fun hlt => absurd hc.2.1 (by linarith)
      have l3 : ¬ m.percentile_500 < lo := fun hlt => absurd hc.2.2 (by linarith)
      have hL0 : L = 0 := by
        rw [hLdef, if_neg l1, if_neg l2, if_neg l3]
      rw [if_neg (by rw [hL0]; decide), if_neg (by rw [hL0]; decide), if_pos hg3]

/-- Witness for C6 at the default 40/60 bands. -/
theorem consensus_strong_iff_witness :
    (get_percentile_consensus (mkTestMetrics 25 30 35 0 10 none) 40 60 = "强低估" ↔
      ((25 : ℚ) < 40 ∧ (30 : ℚ) < 40 ∧ (35 : ℚ) < 40)) ∧
    (get_percentile_consensus (mkTestMetrics 25 30 35 0 10 none) 40 60 = "强高估" ↔
      ((60 : ℚ) < 25 ∧ (60 : ℚ) < 30 ∧ (60 : ℚ) < 35)) :=
  consensus_strong_iff (mkTestMetrics 25 30 35 0 10 none) 40 60 (by norm_num)

/-- C7 (amended): for every input resolving to the hedge-commodity
(GOLD_ETF) asset class, `evaluate_etf_strategy` never returns StopBuy; and,
provided the circuit breaker does not trip, whenever the mid-window
percentile is at or above the fourth zone boundary it returns NormalBuy if a
broad-market drop is supplied and below −2.0, and Hold otherwise. -/
theorem gold_hedge_no_stop_buy
    (m : QuantMetrics) (ac : Option String) (fn : String) (md : Option ℚ)
    (hg : resolve_asset_class ac "ETF_Feeder" fn = "GOLD_ETF") :
    (evaluate_etf_strategy m ac fn md).decision ≠ Decision.STOP_BUY ∧
    ((∀ dv, m.daily_change = some dv →
        (get_thresholds "GOLD_ETF").circuit_breaker_drop ≤ dv ∧
        dv ≤ (get_thresholds "GOLD_ETF").circuit_breaker_rise) →
      (get_thresholds "GOLD_ETF").zone_thresholds.2.2.2 ≤ m.percentile_250 →
      (evaluate_etf_strategy m ac fn md).decision =
        match md with
        | some v => if v < -2.0 then Decision.NORMAL_BUY else Decision.HOLD
        | none => Decision.HOLD) := by
  constructor
  · simp only [evaluate_etf_strategy, hg]
    cases hb1 : opt_lt m.daily_change (get_thresholds "GOLD_ETF").circuit_breaker_drop with
    | true => exact fun hcon => Decision.noConfusion hcon
    | false =>
      cases hb2 : opt_gt m.daily_change (get_thresholds "GOLD_ETF").circuit_breaker_rise with
      | true => exact fun hcon => Decision.noConfusion hcon
      | false =>
        simp only [Bool.false_eq_true, if_false]
        rw [if_pos True.intro]
        split_ifs <;> exact fun hcon => Decision.noConfusion hcon
  · intro hnb hp
    have hp85 : (85.0 : ℚ) ≤ m.percentile_250 := by
      rw [show (get_thresholds "GOLD_ETF").zone_thresholds.2.2.2 = 85.0 from rfl] at hp
      exact hp
    have hg1 : opt_lt m.daily_change
        (get_thresholds "GOLD_ETF").circuit_breaker_drop = false := by
      cases hdc : m.daily_change with
      | none => rfl
      | some dv =>
        have h8 := (hnb dv hdc).1
        rw [show (get_thresholds "GOLD_ETF").circuit_breaker_drop = -8.0 from rfl] at h8 ⊢
        simp only [opt_lt, decide_eq_false_iff_not, not_lt]
        exact h8
    have hg2 : opt_gt m.daily_change
        (get_thresholds "GOLD_ETF").circuit_breaker_rise = false := by
      cases hdc : m.daily_change with
      | none => rfl
      | some dv =>
        have h8 := (hnb dv hdc).2
        rw [show (get_thresholds "GOLD_ETF").circuit_breaker_rise = 8.0 from rfl] at h8 ⊢
        simp only [opt_gt, decide_eq_false_iff_not, not_lt]
        exact h8
    have hz0 : ¬ m.percentile_250 < (get_thresholds "GOLD_ETF").zone_thresholds.1 := by
      intro hlt
      rw [show (get_thresholds "GOLD_ETF").zone_thresholds.1 = 15.0 from rfl] at hlt
      linarith
    have hz1 : ¬ m.percentile_250 < (get_thresholds "GOLD_ETF").zone_thresholds.2.1 := by
      intro hlt
      rw [show (get_thresholds "GOLD_ETF").zone_thresholds.2.1 = 35.0 from rfl] at hlt
      linarith
    have hz2 : ¬ m.percentile_250 < (get_thresholds "GOLD_ETF").zone_thresholds.2.2.1 := by
      intro hlt
      rw [show (get_thresholds "GOLD_ETF").zone_thresholds.2.2.1 = 65.0 from rfl] at hlt
      linarith
    have hz3 : ¬ m.percentile_250 < (get_thresholds "GOLD_ETF").zone_thresholds.2.2.2 := by
      intro hlt
      rw [show (get_thresholds "GOLD_ETF").zone_thresholds.2.2.2 = 85.0 from rfl] at hlt
      linarith
    simp only [evaluate_etf_strategy, hg]
    rw [hg1, hg2]
    simp only [Bool.false_eq_true, if_false]
    rw [if_neg hz0, if_neg hz1, if_neg hz2, if_neg hz3, if_pos True.intro]
    cases md with
    | none => rfl
    | some v =>
      dsimp only
      by_cases hv : v < -2.0
      · have hml : opt_lt (some v) (-2.0) = true := by
          simp only [opt_lt]
          exact decide_eq_true hv
        rw [hml, if_pos hv]
        rfl
      · have hml : opt_lt (some v) (-2.0) = false := by
          simp only [opt_lt]
          exact decide_eq_false hv
        rw [hml, if_neg hv]
        rfl

/-- Counterexample for C7 as stated: with the circuit breaker tripped
(daily change −9%), percentile 90 ≥ 85 and a supplied market drop −3 < −2,
the gold evaluator returns Hold, not NormalBuy. -/
theorem gold_high_zone_counterexample :
    (85 : ℚ) ≤ (mkTestMetrics 90 90 90 0 10 (some (-9))).percentile_250 ∧
    ((-3 : ℚ) < -2.0) ∧
    resolve_asset_class (some "GOLD_ETF") "ETF_Feeder" "" = "GOLD_ETF" ∧
    (evaluate_etf_strategy (mkTestMetrics 90 90 90 0 10 (some (-9)))
      (some "GOLD_ETF") "" (some (-3))).decision = Decision.HOLD := by
  refine ⟨by norm_num [mkTestMetrics], by norm_num, rfl, ?_⟩
  have hb : opt_lt (mkTestMetrics 90 90 90 0 10 (some (-9))).daily_change
      (get_thresholds (resolve_asset_class (some "GOLD_ETF") "ETF_Feeder" "")).circuit_breaker_drop
      = true := by
    show opt_lt (some (-9)) (-8.0) = true
    simp only [opt_lt]
    norm_num
  simp only [evaluate_etf_strategy, hb]
  rfl

/-- Witness for C7 (amended): gold at percentile 90, no breaker, market
drop −3 supplied. -/
theorem gold_hedge_no_stop_buy_witness :
    (evaluate_etf_strategy (mkTestMetrics 90 90 90 0 10 none)
      (some "GOLD_ETF") "" (some (-3))).decision ≠ Decision.STOP_BUY ∧
    (evaluate_etf_strategy (mkTestMetrics 90 90 90 0 10 none)
      (some "GOLD_ETF") "" (some (-3))).decision = Decision.NORMAL_BUY := by
  obtain ⟨h1, h2⟩ := gold_hedge_no_stop_buy (mkTestMetrics 90 90 90 0 10 none)
    (some "GOLD_ETF") "" (some (-3)) rfl
  refine ⟨h1, ?_⟩
  have h3 := h2 (fun dv hdv => Option.noConfusion hdv)
    (by rw [show (get_thresholds "GOLD_ETF").zone_thresholds.2.2.2 = 85.0 from rfl]
        norm_num [mkTestMetrics])
  rw [h3]
  norm_num

/-- C9: divergence at the failing input — with the 250-day percentile
exactly 90 (not strictly above the watermark), the income/defensive code
already marks the instrument overvalued (`is_overvalued` is computed with
`>=`, while the claim and the code's own docstrings say `> 90`), and
`evaluate_bond_strategy` takes the overvalued Hold path (zone 高估区). -/
theorem bond_overvalued_boundary :
    ¬ ((90 : ℚ) > 90) ∧
    (detect_bond_signal (mkTestMetrics 90 90 90 0 10 none) none).is_overvalued = true ∧
    (evaluate_bond_strategy (mkTestMetrics 90 90 90 0 10 none) none "").zone = "高估区" ∧
    (evaluate_bond_strategy (mkTestMetrics 90 90 90 0 10 none) none "").decision =
      Decision.HOLD := by
  have hma1 : ¬ ((mkTestMetrics 90 90 90 0 10 none).ma_deviation <
      min (get_dynamic_ma_threshold (mkTestMetrics 90 90 90 0 10 none).volatility_60)
        (get_thresholds (orDefault none "DEFAULT_BOND")).ma_base_threshold) := by
    rw [show (mkTestMetrics 90 90 90 0 10 none).ma_deviation = 0 from rfl,
      show (mkTestMetrics 90 90 90 0 10 none).volatility_60 = 10 from rfl,
      show (get_thresholds (orDefault none "DEFAULT_BOND")).ma_base_threshold = -1.5 from rfl,
      show get_dynamic_ma_threshold 10 = -(max 0.3 (min 5.0 (10 / 10))) from rfl]
    norm_num [min_def, max_def]
  have hma2 : ¬ ((mkTestMetrics 90 90 90 0 10 none).ma_deviation <
      min (get_dynamic_ma_threshold (mkTestMetrics 90 90 90 0 10 none).volatility_60)
        (get_thresholds (orDefault (some "BOND_PURE") "DEFAULT_BOND")).ma_base_threshold) := by
    rw [show (mkTestMetrics 90 90 90 0 10 none).ma_deviation = 0 from rfl,
      show (mkTestMetrics 90 90 90 0 10 none).volatility_60 = 10 from rfl,
      show (get_thresholds (orDefault (some "BOND_PURE") "DEFAULT_BOND")).ma_base_threshold
        = -0.8 from rfl,
      show get_dynamic_ma_threshold 10 = -(max 0.3 (min 5.0 (10 / 10))) from rfl]
    norm_num [min_def, max_def]
  have hov90 : decide (BOND_OVERVALUED_PERCENTILE ≤
      (mkTestMetrics 90 90 90 0 10 none).percentile_250) = true := by
    rw [show (mkTestMetrics 90 90 90 0 10 none).percentile_250 = 90 from rfl]
    norm_num [BOND_OVERVALUED_PERCENTILE]
  have hdet1 : (detect_bond_signal (mkTestMetrics 90 90 90 0 10 none) none).is_overvalued
      = true := by
    simp only [detect_bond_signal, if_neg hma1]
    exact hov90
  have hdet2ov : (detect_bond_signal (mkTestMetrics 90 90 90 0 10 none)
      (some "BOND_PURE")).is_overvalued = true := by
    simp only [detect_bond_signal, if_neg hma2]
    exact hov90
  have hdet2op : (detect_bond_signal (mkTestMetrics 90 90 90 0 10 none)
      (some "BOND_PURE")).has_opportunity = false := by
    simp only [detect_bond_signal, if_neg hma2]
    rfl
  have hres : resolve_asset_class none "Bond" "" = "BOND_PURE" := rfl
  have heval : (evaluate_bond_strategy (mkTestMetrics 90 90 90 0 10 none) none "").zone
      = "高估区" ∧
      (evaluate_bond_strategy (mkTestMetrics 90 90 90 0 10 none) none "").decision =
        Decision.HOLD := by
    simp only [evaluate_bond_strategy, hres]
    rw [show opt_lt (mkTestMetrics 90 90 90 0 10 none).daily_change
      (get_thresholds "BOND_PURE").circuit_breaker_drop = false from rfl]
    simp only [Bool.false_eq_true, if_false]
    rw [hdet2ov, hdet2op]
    simp only [Bool.false_eq_true, false_and, if_false, if_true]
    constructor <;> trivial
  exact ⟨by norm_num, hdet1, heval.1, heval.2⟩
